import Mathlib

/-!
Verification of the plugin-repository version-selection and download-planning
logic of `pkg/plugins/repo/service.go`.

The Go code is embedded shallowly:
* Go structs become Lean structures; a Go `map[string]T` that may be `nil`
  becomes `Option (List (String × T))` — key membership and key lookup, the
  only two operations the code performs on the map, are order-independent,
  so the association-list model is faithful to Go's unordered maps.
* The fallible `selectVersion` / `GetPluginDownloadOptions` return `Except`.
* `strings.ReplaceAll(v, " ", "")` removes every space character, which on
  the character-list view of a string is a `filter`; `normalized[1:]` after
  a check for a one-byte leading `"^"` or `"v"` drops exactly one character.
* Go's `var ver Version` zero value, first-match loop and `break` are
  `List.find?` with a `getD zeroVersion` default.
-/

deriving instance DecidableEq for Except

namespace Repo

/-- Per-architecture metadata of a release; field `SHA256` is the archive
checksum (Go struct `ArchMeta`). -/
structure ArchMeta where
  SHA256 : String
  deriving DecidableEq

/-- One published release of a plugin (Go struct `Version`): its version
string, an optional architecture map, and the angular-detected flag. -/
structure Version where
  version : String
  arch : Option (List (String × ArchMeta))
  angularDetected : Bool
  deriving DecidableEq

/-- Plugin metadata as returned by the catalog (Go struct `Plugin`): the
plugin id and the release list, assumed sorted newest-first upstream. -/
structure Plugin where
  id : String
  versions : List Version
  deriving DecidableEq

/-- Modelled from the spec: the `CompatOpts` type is declared outside the
given source fragment; the spec describes it as the "target architecture/OS
pair, boolean legacy-framework support enabled". `service.go` reads the field
`AngularSupportEnabled` and calls the methods `OSAndArch` and `Readable`. -/
structure CompatOpts where
  os : String
  arch : String
  angularSupportEnabled : Bool
  deriving DecidableEq

/-- Modelled from the spec: architecture keys look like `"linux_amd64"`, the
OS and the architecture joined by an underscore. -/
def CompatOpts.OSAndArch (c : CompatOpts) : String :=
  c.os ++ "_" ++ c.arch

/-- Modelled from the spec: a "human-readable description of constraints",
carried by the selection errors for diagnostics. -/
def CompatOpts.Readable (c : CompatOpts) : String :=
  c.os ++ " " ++ c.arch

/-- The download plan (Go struct `PluginDownloadOptions`). -/
structure PluginDownloadOptions where
  version : String
  checksum : String
  pluginZipURL : String
  deriving DecidableEq

/-- The three selection errors of `service.go`. The error structs themselves
are declared outside the given fragment; each constructor here carries
exactly the fields populated at its construction site in `selectVersion`
(`PluginID`/`SystemInfo`, plus `RequestedVersion` for the two version
errors). -/
inductive Err where
  | supportedVersionNotFound (pluginID systemInfo : String)
  | versionNotFound (pluginID requestedVersion systemInfo : String)
  | versionUnsupported (pluginID requestedVersion systemInfo : String)
  deriving DecidableEq

/-- The strings an error value carries, used to state what diagnostic data a
returned error does or does not contain. -/
def Err.carries : Err → List String
  | .supportedVersionNotFound pluginID systemInfo => [pluginID, systemInfo]
  | .versionNotFound pluginID requestedVersion systemInfo =>
      [pluginID, requestedVersion, systemInfo]
  | .versionUnsupported pluginID requestedVersion systemInfo =>
      [pluginID, requestedVersion, systemInfo]

/-- Character-level body of `normalizeVersion`: remove every space
(`strings.ReplaceAll(version, " ", "")`), then drop a single leading `'^'`
or `'v'` (`normalized[1:]` behind the two `strings.HasPrefix` checks; both
markers are one-byte characters, so the byte slice drops one character). -/
def normalizeChars (l : List Char) : List Char :=
  match l.filter (fun c => c != ' ') with
  | [] => []
  | c :: rest => if c == '^' || c == 'v' then rest else c :: rest

/-- Go `normalizeVersion` (service.go lines 198-205). -/
def normalizeVersion (version : String) : String :=
  String.mk (normalizeChars version.data)

/-- Go `supportsCurrentArch` (service.go lines 163-173): a nil architecture
map supports every system; otherwise some key must equal the constraints'
`OSAndArch` or the wildcard `"any"`. -/
def supportsCurrentArch (version : Version) (compatOpts : CompatOpts) : Bool :=
  match version.arch with
  | none => true
  | some archMap => archMap.any (fun p => p.1 == compatOpts.OSAndArch || p.1 == "any")

/-- Go `isVersionCompatible` (service.go lines 177-185). -/
def isVersionCompatible (version : Version) (compatOpts : CompatOpts) : Bool :=
  if !supportsCurrentArch version compatOpts then false
  else if !compatOpts.angularSupportEnabled && version.angularDetected then false
  else true

/-- Go `latestSupportedVersion` (service.go lines 187-196): the first
compatible release in catalog order, if any. -/
def latestSupportedVersion (plugin : Plugin) (compatOpts : CompatOpts) : Option Version :=
  plugin.versions.find? (fun v => isVersionCompatible v compatOpts)

/-- The zero value of Go's `var ver Version`. -/
def zeroVersion : Version :=
  { version := "", arch := none, angularDetected := false }

/-- Go `selectVersion` (service.go lines 112-161). The first-match loop over
`plugin.Versions` with `break`, starting from the zero value `var ver
Version`, is `List.find?` with a `zeroVersion` default; the not-found check
is Go's `len(ver.Version) == 0`. -/
def selectVersion (plugin : Plugin) (version : String) (compatOpts : CompatOpts) :
    Except Err Version :=
  let version := normalizeVersion version
  match latestSupportedVersion plugin compatOpts with
  | none => Except.error (Err.supportedVersionNotFound plugin.id compatOpts.Readable)
  | some latestSupported =>
    if version = "" then
      Except.ok latestSupported
    else
      let ver := (plugin.versions.find? (fun v => v.version == version)).getD zeroVersion
      if ver.version.length = 0 then
        Except.error (Err.versionNotFound plugin.id version compatOpts.Readable)
      else if !isVersionCompatible ver compatOpts then
        Except.error (Err.versionUnsupported plugin.id version compatOpts.Readable)
      else
        Except.ok ver

/-- Go `GetPluginDownloadOptions` (service.go lines 54-80) after the metadata
fetch: the network fetch of `Plugin` is the transport collaborator, so the
already-fetched metadata is a parameter. A Go map index without the comma-ok
form yields the zero value, hence the `getD` with an empty `SHA256` on the
`"any"` fallback. -/
def getPluginDownloadOptions (baseURL pluginID : String) (plugin : Plugin)
    (version : String) (compatOpts : CompatOpts) : Except Err PluginDownloadOptions :=
  match selectVersion plugin version compatOpts with
  | Except.error e => Except.error e
  | Except.ok v =>
    let checksum : String :=
      match v.arch with
      | none => ""
      | some archMap =>
        let archMeta :=
          match archMap.lookup compatOpts.OSAndArch with
          | some m => m
          | none => (archMap.lookup "any").getD { SHA256 := "" }
        archMeta.SHA256
    Except.ok { version := v.version, checksum := checksum,
                pluginZipURL := baseURL ++ "/" ++ pluginID ++ "/versions/" ++ v.version ++ "/download" }

/-- Spec-side checksum resolution, spelled from the spec's words: "if the
release declares an architecture map, look up the constraints' exact arch
key; if absent, fall back to the `\"any\"` entry; if that is also absent,
checksum is empty", and empty when no architecture map is declared. -/
def planChecksumSpec (v : Version) (compatOpts : CompatOpts) : String :=
  match v.arch with
  | none => ""
  | some archMap =>
    match archMap.lookup compatOpts.OSAndArch with
    | some m => m.SHA256
    | none =>
      match archMap.lookup "any" with
      | some m => m.SHA256
      | none => ""

/-- A release compatible with every constraint: no arch map, no angular. -/
def v100 : Version := { version := "1.0.0", arch := none, angularDetected := false }

/-- A newer release compatible with every constraint. -/
def v200 : Version := { version := "2.0.0", arch := none, angularDetected := false }

/-- A release with an empty but non-nil architecture map: incompatible with
every constraint. -/
def v100bad : Version := { version := "1.0.0", arch := some [], angularDetected := false }

/-- A release whose catalog version string keeps a leading `"v"`. -/
def v100v : Version := { version := "v1.0.0", arch := none, angularDetected := false }

/-- Concrete constraints used by witnesses and counterexamples. -/
def opts0 : CompatOpts := { os := "linux", arch := "amd64", angularSupportEnabled := true }

/-- Constraints whose `OSAndArch` is `"darwin_arm64"`. -/
def optsDarwin : CompatOpts := { os := "darwin", arch := "arm64", angularSupportEnabled := true }

/-- One-release catalog. -/
def plugin1 : Plugin := { id := "pid", versions := [v100] }

/-- Two-release catalog, newest first. -/
def plugin2 : Plugin := { id := "pid", versions := [v200, v100] }

/-- Catalog with two releases sharing the version string `"1.0.0"`: the
first is incompatible, the second compatible. -/
def pluginDup : Plugin := { id := "pid", versions := [v100bad, v100] }

/-- Catalog with two releases sharing the version string `"1.0.0"`: the
first is compatible, the second incompatible. -/
def pluginDup2 : Plugin := { id := "pid", versions := [v100, v100bad] }

/-- Catalog whose only release is incompatible with every constraint. -/
def pluginBad : Plugin := { id := "pid", versions := [v100bad] }

/-- Catalog where the requested `"1.0.0"` matches only the incompatible
release while `"2.0.0"` is the latest supported one. -/
def pluginC6 : Plugin := { id := "pid", versions := [v200, v100bad] }

/-- Catalog whose only release's version string keeps a leading `"v"`. -/
def pluginV : Plugin := { id := "pid", versions := [v100v] }

/-- Architecture map of the spec's checksum example. -/
def shaMap : List (String × ArchMeta) :=
  [("linux_amd64", { SHA256 := "sha1" }), ("any", { SHA256 := "sha2" })]

/-- Release carrying the spec's example architecture map. -/
def vSha : Version := { version := "1.0.0", arch := some shaMap, angularDetected := false }

/-- Catalog holding `vSha` only. -/
def pluginSha : Plugin := { id := "pid", versions := [vSha] }

/-- A non-empty string has non-zero length. -/
lemma length_ne_zero_of_ne_empty (s : String) (h : s ≠ "") : s.length ≠ 0 := by
  cases s with
  | mk l =>
    cases l with
    | nil => simp_all
    | cons c cs => simp [String.length]

/-- The release produced by `latestSupportedVersion` is compatible. -/
lemma latestSupportedVersion_compat {plugin : Plugin} {compatOpts : CompatOpts} {v : Version}
    (h : latestSupportedVersion plugin compatOpts = some v) :
    isVersionCompatible v compatOpts = true := by
  unfold latestSupportedVersion at h
  have hp := List.find?_some h
  simpa using hp

/-- The release produced by `latestSupportedVersion` is in the catalog. -/
lemma latestSupportedVersion_mem {plugin : Plugin} {compatOpts : CompatOpts} {v : Version}
    (h : latestSupportedVersion plugin compatOpts = some v) :
    v ∈ plugin.versions := by
  unfold latestSupportedVersion at h
  exact List.mem_of_find?_eq_some h

/-- Any release returned successfully by `selectVersion` is compatible. -/
lemma ok_implies_compat {plugin : Plugin} {rv : String} {compatOpts : CompatOpts} {v : Version}
    (h : selectVersion plugin rv compatOpts = Except.ok v) :
    isVersionCompatible v compatOpts = true := by
  simp only [selectVersion] at h
  split at h
  · simp at h
  · rename_i ls hls
    by_cases he : normalizeVersion rv = ""
    · rw [if_pos he] at h
      obtain rfl : ls = v := by simpa using h
      exact latestSupportedVersion_compat hls
    · rw [if_neg he] at h
      split at h
      · simp at h
      · split at h
        · simp at h
        · rename_i hcompat
          obtain rfl : _ = v := by simpa using h
          simpa using hcompat

/-- Every character surviving `normalizeChars` survives the space filter. -/
lemma normalizeChars_sub_filter (l : List Char) :
    ∀ c ∈ normalizeChars l, c ∈ l.filter (fun c => c != ' ') := by
  intro c h
  unfold normalizeChars at h
  split at h
  · simp at h
  · rename_i a rest hf
    rw [hf]
    split at h
    · exact List.mem_cons_of_mem a h
    · exact h

/-- The output of `normalizeChars` contains no space, so filtering it again
is the identity. -/
lemma filter_normalizeChars (l : List Char) :
    (normalizeChars l).filter (fun c => c != ' ') = normalizeChars l :=
  List.filter_eq_self.mpr
    (fun a ha => (List.mem_filter.mp (normalizeChars_sub_filter l a ha)).2)

/-- `normalizeChars` fixes any space-free list whose head is not a stripped
marker. -/
lemma normalizeChars_fixed (n : List Char)
    (hn : n.filter (fun c => c != ' ') = n)
    (h : ∀ c, n.head? = some c → c ≠ 'v' ∧ c ≠ '^') :
    normalizeChars n = n := by
  unfold normalizeChars
  rw [hn]
  cases n with
  | nil => rfl
  | cons c rest =>
    have hc := h c rfl
    have h1 : (c == '^' || c == 'v') = false := by
      simp [hc.1, hc.2]
    show (if c == '^' || c == 'v' then rest else c :: rest) = c :: rest
    rw [h1]
    simp

/-- Idempotence of normalization holds whenever the normalized form does not
again begin with a stripped marker. -/
lemma normalizeVersion_idem_of_fixed (v : String)
    (h : ∀ c, (normalizeVersion v).data.head? = some c → c ≠ 'v' ∧ c ≠ '^') :
    normalizeVersion (normalizeVersion v) = normalizeVersion v :=
  congrArg String.mk
    (normalizeChars_fixed (normalizeChars v.data) (filter_normalizeChars v.data) h)

/-- `supportsCurrentArch` in the spec's vocabulary: no architecture map, or
some key equals the constraints' arch key or the wildcard. -/
lemma supportsCurrentArch_iff (v : Version) (c : CompatOpts) :
    supportsCurrentArch v c = true ↔
      (v.arch = none ∨
        ∃ m, v.arch = some m ∧ ∃ p ∈ m, p.1 = c.OSAndArch ∨ p.1 = "any") := by
  cases hv : v.arch with
  | none => simp [supportsCurrentArch, hv]
  | some m => simp [supportsCurrentArch, hv, List.any_eq_true]

/-- C1: whenever `selectVersion` returns a release rather than an error, that
release satisfies `isVersionCompatible` for the given constraints. -/
theorem selectVersion_ok_isVersionCompatible (plugin : Plugin) (version : String)
    (compatOpts : CompatOpts) (v : Version)
    (h : selectVersion plugin version compatOpts = Except.ok v) :
    isVersionCompatible v compatOpts = true :=
  ok_implies_compat h

/-- Witness for C1 at a concrete catalog and constraints. -/
theorem selectVersion_ok_isVersionCompatible_witness :
    selectVersion plugin1 "" opts0 = Except.ok v100 ∧
      isVersionCompatible v100 opts0 = true :=
  ⟨by decide, selectVersion_ok_isVersionCompatible plugin1 "" opts0 v100 (by decide)⟩

/-- C2: `isVersionCompatible` holds iff the release declares no architecture
map or its map has the constraints' exact arch key or the wildcard `"any"`,
and angular support is enabled or the release is not flagged
angular-detected. -/
theorem isVersionCompatible_iff (v : Version) (c : CompatOpts) :
    isVersionCompatible v c = true ↔
      ((v.arch = none ∨
          ∃ m, v.arch = some m ∧ ∃ p ∈ m, p.1 = c.OSAndArch ∨ p.1 = "any") ∧
        (c.angularSupportEnabled = true ∨ v.angularDetected = false)) := by
  rw [← supportsCurrentArch_iff]
  cases hsc : supportsCurrentArch v c <;>
    cases hA : c.angularSupportEnabled <;>
      cases hD : v.angularDetected <;>
        simp [isVersionCompatible, hsc, hA, hD]

/-- C3: with a requested version that is empty after normalization,
`selectVersion` returns the first compatible release in catalog order. -/
theorem selectVersion_empty_first_compatible (plugin : Plugin) (version : String)
    (compatOpts : CompatOpts) (v : Version)
    (hnorm : normalizeVersion version = "")
    (hfirst : plugin.versions.find? (fun x => isVersionCompatible x compatOpts) = some v) :
    selectVersion plugin version compatOpts = Except.ok v := by
  simp [selectVersion, latestSupportedVersion, hfirst, hnorm]

/-- Witness for C3: on a two-release catalog the newest-first entry wins. -/
theorem selectVersion_empty_first_compatible_witness :
    normalizeVersion "" = "" ∧
      plugin2.versions.find? (fun x => isVersionCompatible x opts0) = some v200 ∧
      selectVersion plugin2 "" opts0 = Except.ok v200 :=
  ⟨by decide, by decide,
    selectVersion_empty_first_compatible plugin2 "" opts0 v200 (by decide) (by decide)⟩

/-- C4 counterexample: in `pluginDup` the compatible release `v100` has the
requested version string `"1.0.0"`, yet `selectVersion` fails, because the
first catalog entry with that string is the incompatible `v100bad`; so a
matching compatible entry is not returned "regardless of its position". -/
theorem selectVersion_later_duplicate_not_returned :
    v100 ∈ pluginDup.versions ∧ v100.version = "1.0.0" ∧
      isVersionCompatible v100 opts0 = true ∧
      selectVersion pluginDup "1.0.0" opts0 =
        Except.error (Err.versionUnsupported "pid" "1.0.0" opts0.Readable) := by
  decide

/-- C4 as amended: if the first catalog entry whose version string equals the
normalized requested version is compatible, `selectVersion` returns exactly
that entry, regardless of its position in the catalog. -/
theorem selectVersion_first_match_compatible (plugin : Plugin) (version : String)
    (compatOpts : CompatOpts) (entry : Version)
    (hne : normalizeVersion version ≠ "")
    (hfind : plugin.versions.find? (fun v => v.version == normalizeVersion version) = some entry)
    (hcompat : isVersionCompatible entry compatOpts = true) :
    selectVersion plugin version compatOpts = Except.ok entry := by
  have hmem : entry ∈ plugin.versions := List.mem_of_find?_eq_some hfind
  have hver : entry.version = normalizeVersion version := by
    have hp := List.find?_some hfind
    simpa using hp
  have hlen : ¬ entry.version.length = 0 := by
    apply length_ne_zero_of_ne_empty
    rw [hver]
    exact hne
  obtain ⟨ls, hls⟩ : ∃ ls, latestSupportedVersion plugin compatOpts = some ls := by
    unfold latestSupportedVersion
    have hsome : (plugin.versions.find? (fun x => isVersionCompatible x compatOpts)).isSome := by
      rw [List.find?_isSome]
      exact ⟨entry, hmem, hcompat⟩
    exact Option.isSome_iff_exists.mp hsome
  simp [selectVersion, hls, hne, hfind, hlen, hcompat]

/-- Witness for the amended C4: the older release is picked over the newer
one when requested exactly. -/
theorem selectVersion_first_match_compatible_witness :
    selectVersion plugin2 "1.0.0" opts0 = Except.ok v100 :=
  selectVersion_first_match_compatible plugin2 "1.0.0" opts0 v100
    (by decide) (by decide) (by decide)

/-- C5: when no release is compatible, `selectVersion` fails with the
supported-version-not-found error, carrying the plugin id and the readable
constraints, whatever version was requested. -/
theorem selectVersion_no_compatible_error (plugin : Plugin) (compatOpts : CompatOpts)
    (h : ∀ v ∈ plugin.versions, isVersionCompatible v compatOpts = false) :
    ∀ version, selectVersion plugin version compatOpts =
      Except.error (Err.supportedVersionNotFound plugin.id compatOpts.Readable) := by
  intro version
  have hnone : latestSupportedVersion plugin compatOpts = none := by
    unfold latestSupportedVersion
    rw [List.find?_eq_none]
    intro x hx
    simp [h x hx]
  simp [selectVersion, hnone]

/-- Witness for C5: the requested version exactly matches the (incompatible)
only catalog entry and the error is still supported-version-not-found. -/
theorem selectVersion_no_compatible_error_witness :
    selectVersion pluginBad "1.0.0" opts0 =
      Except.error (Err.supportedVersionNotFound "pid" (CompatOpts.Readable opts0)) :=
  selectVersion_no_compatible_error pluginBad opts0 (by decide) "1.0.0"

/-- C6 counterexample: the not-found and incompatible errors carry only the
plugin id, the requested version and the readable constraints — the version
`"2.0.0"` of the latest supported release is not among the carried strings —
and on `pluginDup2` a matching entry (`v100bad`) fails the policy yet
selection succeeds, so "fails ... exactly when a matching entry exists but
fails CompatibilityPolicy" does not hold as stated. -/
theorem selection_errors_do_not_carry_fallback :
    latestSupportedVersion pluginC6 opts0 = some v200 ∧
      selectVersion pluginC6 "1.0.0" opts0 =
        Except.error (Err.versionUnsupported "pid" "1.0.0" opts0.Readable) ∧
      "2.0.0" ∉ (Err.versionUnsupported "pid" "1.0.0" opts0.Readable).carries ∧
      selectVersion pluginC6 "3.0.0" opts0 =
        Except.error (Err.versionNotFound "pid" "3.0.0" opts0.Readable) ∧
      "2.0.0" ∉ (Err.versionNotFound "pid" "3.0.0" opts0.Readable).carries ∧
      selectVersion pluginDup2 "1.0.0" opts0 = Except.ok v100 ∧
      v100bad ∈ pluginDup2.versions ∧ v100bad.version = "1.0.0" ∧
      isVersionCompatible v100bad opts0 = false := by
  decide

/-- C6 as amended: with at least one compatible release and a non-empty
normalized requested version, `selectVersion` fails with the not-found error
(carrying the plugin id, the normalized requested version and the readable
constraints; the fallback version is only logged, not carried) exactly when
no catalog entry's verbatim version string equals the normalized requested
version, and with the incompatible-version error (carrying the same fields)
exactly when the first such matching entry fails the compatibility policy. -/
theorem selectVersion_error_characterization (plugin : Plugin) (version : String)
    (compatOpts : CompatOpts) (ls : Version)
    (hls : latestSupportedVersion plugin compatOpts = some ls)
    (hne : normalizeVersion version ≠ "") :
    (selectVersion plugin version compatOpts =
        Except.error (Err.versionNotFound plugin.id (normalizeVersion version) compatOpts.Readable)
      ↔ plugin.versions.find? (fun v => v.version == normalizeVersion version) = none) ∧
    (selectVersion plugin version compatOpts =
        Except.error (Err.versionUnsupported plugin.id (normalizeVersion version) compatOpts.Readable)
      ↔ ∃ entry,
          plugin.versions.find? (fun v => v.version == normalizeVersion version) = some entry
            ∧ isVersionCompatible entry compatOpts = false) := by
  rcases hfind : plugin.versions.find? (fun v => v.version == normalizeVersion version)
    with _ | entry
  · have hsel : selectVersion plugin version compatOpts =
        Except.error (Err.versionNotFound plugin.id (normalizeVersion version) compatOpts.Readable) := by
      simp [selectVersion, hls, hne, hfind, zeroVersion]
    refine ⟨?_, ?_⟩ <;> rw [hsel] <;> simp [hfind]
  · have hver : entry.version = normalizeVersion version := by
      have hp := List.find?_some hfind
      simpa using hp
    have hlen : ¬ entry.version.length = 0 := by
      apply length_ne_zero_of_ne_empty
      rw [hver]
      exact hne
    by_cases hc : isVersionCompatible entry compatOpts = true
    · have hsel : selectVersion plugin version compatOpts = Except.ok entry := by
        simp [selectVersion, hls, hne, hfind, hlen, hc]
      refine ⟨?_, ?_⟩ <;> rw [hsel] <;> simp [hfind, hc]
    · have hcf : isVersionCompatible entry compatOpts = false := by
        simpa using hc
      have hsel : selectVersion plugin version compatOpts =
          Except.error
            (Err.versionUnsupported plugin.id (normalizeVersion version) compatOpts.Readable) := by
        simp [selectVersion, hls, hne, hfind, hlen, hcf]
      refine ⟨?_, ?_⟩ <;> rw [hsel] <;> simp [hfind, hcf]

/-- Witness for the amended C6 at a concrete catalog: the requested
`"3.0.0"` matches no entry. -/
theorem selectVersion_error_characterization_witness :
    (selectVersion plugin2 "3.0.0" opts0 =
        Except.error (Err.versionNotFound plugin2.id (normalizeVersion "3.0.0") opts0.Readable)
      ↔ plugin2.versions.find? (fun v => v.version == normalizeVersion "3.0.0") = none) ∧
    (selectVersion plugin2 "3.0.0" opts0 =
        Except.error (Err.versionUnsupported plugin2.id (normalizeVersion "3.0.0") opts0.Readable)
      ↔ ∃ entry,
          plugin2.versions.find? (fun v => v.version == normalizeVersion "3.0.0") = some entry
            ∧ isVersionCompatible entry opts0 = false) :=
  selectVersion_error_characterization plugin2 "3.0.0" opts0 v200 (by decide) (by decide)

/-- C7 counterexample: normalization strips at most one leading marker per
application, so it is not idempotent — a second application strips the
`'v'` that the first application uncovered behind the `'^'`. -/
theorem normalizeVersion_not_idempotent :
    normalizeVersion (normalizeVersion "^v1.2.3") ≠ normalizeVersion "^v1.2.3" := by
  decide

/-- C7 as amended: normalization is idempotent on every string whose
normalized form does not again begin with `'v'` or `'^'`, and the three
concrete equalities of the claim hold. -/
theorem normalizeVersion_idem_unless_marker (v : String)
    (h : ∀ c, (normalizeVersion v).data.head? = some c → c ≠ 'v' ∧ c ≠ '^') :
    normalizeVersion (normalizeVersion v) = normalizeVersion v ∧
      normalizeVersion "v1.2.3" = "1.2.3" ∧
      normalizeVersion "1.2.3" = "1.2.3" ∧
      normalizeVersion "^1.2.3" = "1.2.3" :=
  ⟨normalizeVersion_idem_of_fixed v h, by decide, by decide, by decide⟩

/-- Witness for the amended C7 at `"1.2.3"`, whose normalized form starts
with a digit. -/
theorem normalizeVersion_idem_unless_marker_witness :
    normalizeVersion (normalizeVersion "1.2.3") = normalizeVersion "1.2.3" ∧
      normalizeVersion "v1.2.3" = "1.2.3" ∧
      normalizeVersion "1.2.3" = "1.2.3" ∧
      normalizeVersion "^1.2.3" = "1.2.3" := by
  refine normalizeVersion_idem_unless_marker "1.2.3" ?_
  intro c hc
  have h1 : some '1' = some c :=
    ((by decide : (normalizeVersion "1.2.3").data.head? = some '1')).symm.trans hc
  obtain rfl := Option.some.inj h1
  decide

/-- C8 counterexample: catalog version strings are not normalized — the
compatible entry `"v1.0.0"` normalizes to the requested `"1.0.0"`, yet
selection fails with the not-found error. -/
theorem catalog_version_not_normalized :
    normalizeVersion "v1.0.0" = normalizeVersion "1.0.0" ∧
      isVersionCompatible v100v opts0 = true ∧
      selectVersion pluginV "1.0.0" opts0 =
        Except.error (Err.versionNotFound "pid" "1.0.0" opts0.Readable) := by
  decide

/-- C8 as amended: only the requested version is normalized before the exact
match; each catalog entry's version string is compared verbatim. Requesting
`"v1.0.0"` therefore matches a catalog entry `"1.0.0"`, while requesting
`"1.0.0"` does not match a catalog entry `"v1.0.0"`, whatever the
constraints. -/
theorem requested_normalized_catalog_verbatim (compatOpts : CompatOpts) :
    selectVersion plugin1 "v1.0.0" compatOpts = Except.ok v100 ∧
      selectVersion pluginV "1.0.0" compatOpts =
        Except.error (Err.versionNotFound "pid" "1.0.0" compatOpts.Readable) := by
  have hcompat : ∀ w : Version, w.arch = none → w.angularDetected = false →
      isVersionCompatible w compatOpts = true := by
    intro w h1 h2
    simp [isVersionCompatible, supportsCurrentArch, h1, h2]
  have hc1 : isVersionCompatible v100 compatOpts = true := hcompat v100 rfl rfl
  have hcv : isVersionCompatible v100v compatOpts = true := hcompat v100v rfl rfl
  have hnempty : ¬ (("1.0.0" : String) = "") := by decide
  constructor
  · have hnv : normalizeVersion "v1.0.0" = "1.0.0" := by decide
    have hls : latestSupportedVersion plugin1 compatOpts = some v100 := by
      unfold latestSupportedVersion
      simp [plugin1, List.find?_cons, hc1]
    have hfind : plugin1.versions.find? (fun v => v.version == "1.0.0") = some v100 := by
      decide
    have hlen : ¬ (v100.version.length = 0) := by decide
    simp [selectVersion, hls, hnv, hnempty, hfind, hlen, hc1]
  · have hnv2 : normalizeVersion "1.0.0" = "1.0.0" := by decide
    have hls2 : latestSupportedVersion pluginV compatOpts = some v100v := by
      unfold latestSupportedVersion
      simp [pluginV, List.find?_cons, hcv]
    have hfind2 : pluginV.versions.find? (fun v => v.version == "1.0.0") = none := by
      decide
    have hid : pluginV.id = "pid" := rfl
    have hzero : zeroVersion.version.length = 0 := by decide
    simp [selectVersion, hls2, hnv2, hnempty, hfind2, hid, hzero]

/-- C9: for every successfully selected release the plan's version is the
release's version string, its URL is the concatenation
`{baseURL}/{pluginID}/versions/{version}/download`, and its checksum follows
the exact-key / wildcard / empty resolution of `planChecksumSpec`. -/
theorem getPluginDownloadOptions_plan (baseURL pluginID : String) (plugin : Plugin)
    (version : String) (compatOpts : CompatOpts) (v : Version)
    (h : selectVersion plugin version compatOpts = Except.ok v) :
    getPluginDownloadOptions baseURL pluginID plugin version compatOpts =
      Except.ok { version := v.version,
                  checksum := planChecksumSpec v compatOpts,
                  pluginZipURL :=
                    baseURL ++ "/" ++ pluginID ++ "/versions/" ++ v.version ++ "/download" } := by
  simp only [getPluginDownloadOptions, h]
  rcases harch : v.arch with _ | m
  · simp [planChecksumSpec, harch]
  · rcases hl : m.lookup compatOpts.OSAndArch with _ | a
    · rcases hl2 : m.lookup "any" with _ | b
      · simp [planChecksumSpec, harch, hl, hl2]
      · simp [planChecksumSpec, harch, hl, hl2]
    · simp [planChecksumSpec, harch, hl]

/-- Witness for C9: the spec's wildcard-fallback example — arch map with a
`"linux_amd64"` and an `"any"` entry, constraints arch `"darwin_arm64"`,
checksum resolves to `"sha2"`. -/
theorem getPluginDownloadOptions_plan_witness :
    getPluginDownloadOptions "https://gcom/api/plugins" "pid" pluginSha "" optsDarwin =
      Except.ok { version := "1.0.0", checksum := "sha2",
                  pluginZipURL := "https://gcom/api/plugins/pid/versions/1.0.0/download" } := by
  have hp := getPluginDownloadOptions_plan "https://gcom/api/plugins" "pid" pluginSha ""
    optsDarwin vSha (by decide)
  rw [hp]
  decide

/-- C10: a release whose architecture map is empty but non-nil is
arch-incompatible and version-incompatible under every constraint and can
never be returned by `selectVersion`, while a nil architecture map makes a
release arch-compatible under every constraint. -/
theorem emptyArchMap_incompatible (v : Version) (compatOpts : CompatOpts) (plugin : Plugin)
    (rv : String) (w : Version)
    (h : v.arch = some []) (hw : w.arch = none) :
    supportsCurrentArch v compatOpts = false ∧
      isVersionCompatible v compatOpts = false ∧
      selectVersion plugin rv compatOpts ≠ Except.ok v ∧
      supportsCurrentArch w compatOpts = true := by
  have h1 : supportsCurrentArch v compatOpts = false := by
    simp [supportsCurrentArch, h]
  have h2 : isVersionCompatible v compatOpts = false := by
    simp [isVersionCompatible, h1]
  refine ⟨h1, h2, ?_, ?_⟩
  · intro hok
    have hc := ok_implies_compat hok
    rw [h2] at hc
    exact Bool.noConfusion hc
  · simp [supportsCurrentArch, hw]

/-- Witness for C10 at a concrete release, catalog and constraints. -/
theorem emptyArchMap_incompatible_witness :
    supportsCurrentArch v100bad opts0 = false ∧
      isVersionCompatible v100bad opts0 = false ∧
      selectVersion plugin1 "1.0.0" opts0 ≠ Except.ok v100bad ∧
      supportsCurrentArch v100 opts0 = true :=
  emptyArchMap_incompatible v100bad opts0 plugin1 "1.0.0" v100 (by decide) (by decide)

end Repo
